import Mathlib

/-!
Shallow embedding of the Voice2Web browser extension.

Source layout:
* `src/services/content.js` — the Content Dispatcher running in a web page:
  handlers for SEARCH, WEBSITE_SEARCH, FORM_FILL, BOOK_TICKET, SUMMARIZE,
  wrapped by a message listener that converts exceptions into structured
  failure results.
* `src/popup/ui.js` — the popup UI controller (transcript handling, backend
  calls) and the background Router service worker (tab utilities, intent
  routing) concatenated in one file.

The DOM, the browser tab API and the network are modelled as explicit state
and effect records; JavaScript exceptions become `Except String`;
JavaScript truthiness of optional strings is the predicate `truthy`.
-/

namespace Voice2Web

/- ## String utilities mirroring the JavaScript primitives used -/

/-- The character class of the JavaScript regex backslash-s (whitespace):
space, tab, line feed, vertical tab, form feed, carriage return, NBSP, the
Unicode space separators, line and paragraph separators, and BOM. -/
def isJsWs (c : Char) : Bool :=
  c == ' ' || c == '\t' || c == '\n' || c == '\r' ||
  c.toNat == 11 || c.toNat == 12 || c.toNat == 0xa0 || c.toNat == 0x1680 ||
  (0x2000 ≤ c.toNat && c.toNat ≤ 0x200a) || c.toNat == 0x2028 ||
  c.toNat == 0x2029 || c.toNat == 0x202f || c.toNat == 0x205f ||
  c.toNat == 0x3000 || c.toNat == 0xfeff

/-- JavaScript `s.replace(re_ws_plus, ' ')` on the character list: every
maximal run of whitespace collapses to a single space. -/
def collapseWsCh : List Char → List Char
  | [] => []
  | [c] => if isJsWs c then [' '] else [c]
  | c1 :: c2 :: rest =>
    if isJsWs c1 && isJsWs c2 then collapseWsCh (c2 :: rest)
    else (if isJsWs c1 then ' ' else c1) :: collapseWsCh (c2 :: rest)

/-- JavaScript `String.prototype.trim` on the character list. -/
def jsTrimCh (l : List Char) : List Char :=
  ((l.dropWhile isJsWs).reverse.dropWhile isJsWs).reverse

/-- Does the list avoid two adjacent whitespace characters?  This is the
semantic reading of "every run of whitespace collapsed". -/
def noAdjWs : List Char → Bool
  | c1 :: c2 :: rest => !(isJsWs c1 && isJsWs c2) && noAdjWs (c2 :: rest)
  | _ => true

/-- Follows the spec's wording, not the code: a URL can only carry a
scheme when it holds a colon separator, so a colon-free URL certainly has
no scheme.  Used solely to compare the spec's no-scheme condition with the
code's startsWith test. -/
def specHasScheme (s : String) : Bool :=
  s.toList.any (fun c => c == ':')

/-- Is `pre` a prefix of `l` (character lists)? -/
def isPrefixCh : List Char → List Char → Bool
  | [], _ => true
  | _ :: _, [] => false
  | a :: as, b :: bs => a == b && isPrefixCh as bs

/-- Is `needle` an infix of `hay` (character lists)? -/
def isInfixCh (needle : List Char) : List Char → Bool
  | [] => needle.isEmpty
  | h :: t => isPrefixCh needle (h :: t) || isInfixCh needle t

/-- JavaScript `s.includes(sub)`. -/
def strIncludes (s sub : String) : Bool :=
  isInfixCh sub.toList s.toList

/-- JavaScript `s.startsWith(pre)`. -/
def startsWithCh (s pre : String) : Bool :=
  isPrefixCh pre.toList s.toList

/-- JavaScript truthiness of a possibly-absent string: `undefined` and the
empty string are falsy. -/
def truthy : Option String → Bool
  | none => false
  | some s => !(s == "")

/-- Substring test on a possibly-absent attribute (an absent attribute
matches no CSS attribute selector). -/
def optIncludes (o : Option String) (sub : String) : Bool :=
  match o with
  | some s => strIncludes s sub
  | none => false

/-- The UTF-8 bytes of one character, computed from its code point. -/
def utf8BytesOf (c : Char) : List Nat :=
  let n := c.toNat
  if n < 0x80 then [n]
  else if n < 0x800 then [0xc0 + n / 0x40, 0x80 + n % 0x40]
  else if n < 0x10000 then
    [0xe0 + n / 0x1000, 0x80 + (n / 0x40) % 0x40, 0x80 + n % 0x40]
  else
    [0xf0 + n / 0x40000, 0x80 + (n / 0x1000) % 0x40,
     0x80 + (n / 0x40) % 0x40, 0x80 + n % 0x40]

/-- One uppercase hexadecimal digit. -/
def hexDigit (n : Nat) : Char :=
  if n < 10 then Char.ofNat (48 + n) else Char.ofNat (55 + n)

/-- Is this byte, as a character, left unescaped by `encodeURIComponent`?
The unreserved set is ASCII alphanumerics and `-_.!~*'()`. -/
def isUriUnreserved (n : Nat) : Bool :=
  (48 ≤ n && n ≤ 57) || (65 ≤ n && n ≤ 90) || (97 ≤ n && n ≤ 122) ||
  n == 45 || n == 95 || n == 46 || n == 33 || n == 126 || n == 42 ||
  n == 39 || n == 40 || n == 41

/-- Percent-encoding of one UTF-8 byte. -/
def encodeByte (n : Nat) : List Char :=
  if isUriUnreserved n then [Char.ofNat n]
  else ['%', hexDigit (n / 16), hexDigit (n % 16)]

/-- JavaScript `encodeURIComponent`. -/
def encodeURIComponent (s : String) : String :=
  String.mk ((s.toList.flatMap utf8BytesOf).flatMap encodeByte)

/- ## Data model -/

/-- The entity bag of a classified intent payload.  Fields the code reads:
`query` (SEARCH, WEBSITE_SEARCH), `website` (open_site), `form_fields`
(FORM_FILL, entries in object order), and `from`, `to`, `date`
(BOOK_TICKET). -/
structure Entities where
  query : Option String := none
  website : Option String := none
  form_fields : Option (List (String × String)) := none
  «from» : Option String := none
  «to» : Option String := none
  date : Option String := none
deriving Repr, DecidableEq

/-- An intent payload as produced by the external classifier. -/
structure IntentPayload where
  intent : String
  entities : Entities := {}
  message : String := ""
deriving Repr, DecidableEq

/-- A command relayed from the Router to the Content Dispatcher. -/
structure Command where
  type : String
  payload : IntentPayload
deriving Repr, DecidableEq

/-- A structured result, the uniform reply of every handler. -/
structure Result where
  success : Bool
  message : Option String := none
  error : Option String := none
  summary : Option String := none
  tabId : Option Nat := none
deriving Repr, DecidableEq

/- ## Content Dispatcher: page model -/

/-- A form control or other element of the page, with the attributes the
selectors in `content.js` inspect. -/
structure Elem where
  tag : String
  type : Option String := none
  name : Option String := none
  id : Option String := none
  placeholder : Option String := none
  value : String := ""
  inForm : Bool := false
deriving Repr, DecidableEq

/-- The page a content script runs in: location hostname, elements in
document order, and the visible body text. -/
structure Page where
  hostname : String
  elements : List Elem := []
  bodyText : String := ""
deriving Repr, DecidableEq

/-- Observable side effects of one content-script handler run. -/
structure PageEffects where
  navigatedTo : Option String := none
  waits : List Nat := []
  events : List String := []
  submits : Nat := 0
  clicks : Nat := 0
  keydowns : Nat := 0
deriving Repr, DecidableEq

/-- Set the value of the first element satisfying `p` (document order:
`querySelector` over a selector list), returning the updated element list
and the matched element, or `none` when no element matches. -/
def setFirstValue (p : Elem → Bool) (v : String) : List Elem → Option (List Elem × Elem)
  | [] => none
  | e :: rest =>
    if p e then some ({ e with value := v } :: rest, e)
    else
      match setFirstValue p v rest with
      | none => none
      | some (rest', e') => some (e :: rest', e')

namespace Content

/-- The SEARCH handler `handleGoogleSearch` of `content.js`: requires a
truthy query; off a google host it navigates to the results URL and returns
at once; on a google host it waits, fills the `q` input, and submits its
form. -/
def handleGoogleSearch (data : IntentPayload) (page : Page) :
    Except String Result × Page × PageEffects :=
  if !truthy data.entities.query then
    (.error "No search query provided", page, {})
  else
    let q := data.entities.query.getD ""
    if !(strIncludes page.hostname "google") then
      (.ok { success := true, message := some "Redirecting to Google" }, page,
       { navigatedTo := some ("https://www.google.com/search?q=" ++ encodeURIComponent q) })
    else
      match setFirstValue (fun e => e.tag == "input" && e.name == some "q") q page.elements with
      | none => (.error "Google search box not found", page, { waits := [1000] })
      | some (els', e) =>
        if e.inForm then
          (.ok { success := true, message := some "Search executed" },
           { page with elements := els' },
           { waits := [1000, 300], events := ["input"], submits := 1 })
        else
          (.error "Cannot read properties of null",
           { page with elements := els' },
           { waits := [1000, 300], events := ["input"] })

/-- The heuristic search-box selector of `handleWebsiteSearch`: an input of
type `search`, or whose name or placeholder contains "search". -/
def isSearchBox (e : Elem) : Bool :=
  e.tag == "input" &&
    (e.type == some "search" || optIncludes e.name "search" ||
     optIncludes e.placeholder "search")

/-- The WEBSITE_SEARCH handler of `content.js`: requires a truthy query,
fills the first heuristic search box, then submits via its form when it has
one, else via a synthetic Enter keydown. -/
def handleWebsiteSearch (data : IntentPayload) (page : Page) :
    Except String Result × Page × PageEffects :=
  if !truthy data.entities.query then
    (.error "No query provided", page, {})
  else
    let q := data.entities.query.getD ""
    match setFirstValue isSearchBox q page.elements with
    | none => (.error "No search box found on website", page, {})
    | some (els', e) =>
      if e.inForm then
        (.ok { success := true, message := some "Website search completed" },
         { page with elements := els' },
         { waits := [300], events := ["input", "change"], submits := 1 })
      else
        (.ok { success := true, message := some "Website search completed" },
         { page with elements := els' },
         { waits := [300], events := ["input", "change"], keydowns := 1 })

/-- The FORM_FILL element selector: an input whose name or id contains the
key, or a textarea whose name contains the key. -/
def matchesFormField (key : String) (e : Elem) : Bool :=
  (e.tag == "input" && optIncludes e.name key) ||
  (e.tag == "input" && optIncludes e.id key) ||
  (e.tag == "textarea" && optIncludes e.name key)

/-- The entry loop of `handleFormFill`: for each field entry in order, fill
the first matching element if any, counting filled entries and dispatching
input and change events per fill. -/
def fillFieldsLoop : List (String × String) → List Elem → List Elem × Nat × List String
  | [], els => (els, 0, [])
  | (k, v) :: rest, els =>
    match setFirstValue (matchesFormField k) v els with
    | none => fillFieldsLoop rest els
    | some (els', _) =>
      let r := fillFieldsLoop rest els'
      (r.1, r.2.1 + 1, "input" :: "change" :: r.2.2)

/-- The FORM_FILL handler of `content.js`: throws when `form_fields` is
absent or empty; otherwise fills matching fields and reports how many were
filled. -/
def handleFormFill (data : IntentPayload) (page : Page) :
    Except String Result × Page × PageEffects :=
  match data.entities.form_fields with
  | none => (.error "No form fields provided", page, {})
  | some fields =>
    if fields.isEmpty then
      (.error "No form fields provided", page, {})
    else
      let r := fillFieldsLoop fields page.elements
      (.ok { success := true, message := some ("Filled " ++ toString r.2.1 ++ " fields") },
       { page with elements := r.1 }, { events := r.2.2 })

/-- The `autoFill` selector of `content.js`: an input whose name or id
contains the given name. -/
def autoFillMatches (nm : String) (e : Elem) : Bool :=
  (e.tag == "input" && optIncludes e.name nm) ||
  (e.tag == "input" && optIncludes e.id nm)

/-- `autoFill` of `content.js`: skip silently when the value is falsy or no
element matches; otherwise fill, dispatch events and wait. -/
def autoFill (nm : String) (value : Option String) (els : List Elem) :
    List Elem × PageEffects :=
  if !truthy value then (els, {})
  else
    match setFirstValue (autoFillMatches nm) (value.getD "") els with
    | none => (els, {})
    | some (els', _) =>
      (els', { events := ["input", "change"], waits := [200] })

/-- Sequential composition of page effects. -/
def effAppend (a b : PageEffects) : PageEffects :=
  { navigatedTo := (b.navigatedTo).orElse (fun _ => a.navigatedTo),
    waits := a.waits ++ b.waits,
    events := a.events ++ b.events,
    submits := a.submits + b.submits,
    clicks := a.clicks + b.clicks,
    keydowns := a.keydowns + b.keydowns }

/-- Is this element a submit control (`button` or `input` of type
`submit`)? -/
def isSubmitControl (e : Elem) : Bool :=
  (e.tag == "button" && e.type == some "submit") ||
  (e.tag == "input" && e.type == some "submit")

/-- The BOOK_TICKET handler `handleBooking` of `content.js`: best-effort
fill of `from`, `to`, `date`, then click the first submit control if any;
it always returns success. -/
def handleBooking (data : IntentPayload) (page : Page) :
    Except String Result × Page × PageEffects :=
  let a1 := autoFill "from" data.entities.«from» page.elements
  let a2 := autoFill "to" data.entities.«to» a1.1
  let a3 := autoFill "date" data.entities.date a2.1
  let clickEff : PageEffects :=
    if a3.1.any isSubmitControl then { clicks := 1 } else {}
  (.ok { success := true, message := some "Booking form processed" },
   { page with elements := a3.1 },
   effAppend (effAppend (effAppend a1.2 a2.2) a3.2) clickEff)

/-- The SUMMARIZE handler of `content.js`: visible body text with
whitespace runs collapsed, trimmed, and cut to the first 5000 characters;
it always returns success. -/
def handleSummarize (page : Page) : Except String Result × Page × PageEffects :=
  let clean := String.mk ((jsTrimCh (collapseWsCh page.bodyText.toList)).take 5000)
  (.ok { success := true, summary := some clean,
         message := some "Page content extracted" }, page, {})

/-- The content-script message listener: dispatch on the command type, and
convert a thrown error into a structured failure result. -/
def contentDispatch (msg : Command) (page : Page) : Result × Page × PageEffects :=
  let out :=
    match msg.type with
    | "SEARCH" => handleGoogleSearch msg.payload page
    | "WEBSITE_SEARCH" => handleWebsiteSearch msg.payload page
    | "FORM_FILL" => handleFormFill msg.payload page
    | "BOOK_TICKET" => handleBooking msg.payload page
    | "SUMMARIZE" => handleSummarize page
    | _ => (.ok { success := false, error := some "Unknown command" }, page, {})
  match out.1 with
  | .ok r => (r, out.2.1, out.2.2)
  | .error e => ({ success := false, error := some e }, out.2.1, out.2.2)

end Content

/- ## Router service worker: tab utilities and intent routing -/

/-- A browser tab as the tab utilities see it. -/
structure Tab where
  id : Nat
  url : String
deriving Repr, DecidableEq

/-- The ambient browser tab state: the active tab of the current window,
if any, and all open tabs in order. -/
structure BrowserState where
  activeTab : Option Tab := none
  openTabs : List Tab := []
deriving Repr, DecidableEq

/-- Observable side effects of one Router run: URLs of tabs created, and
commands relayed to the Content Dispatcher. -/
structure RouterEffects where
  tabsCreated : List String := []
  sent : List Command := []
deriving Repr, DecidableEq

/-- The Router's environment: the browser tab state, the tab the browser
would hand back for a `tabs.create` at a given URL, and the reply of the
tab's content script to a relayed command (an error models a messaging
failure, which surfaces as a rejected promise). -/
structure RouterEnv where
  browser : BrowserState
  nextTab : String → Tab
  contentReply : Command → Except String Result

namespace Router

/-- `getActiveTab` of the Router: the active tab of the current window, or
a rejection. -/
def getActiveTab (b : BrowserState) : Except String Tab :=
  match b.activeTab with
  | some t => .ok t
  | none => .error "No active tab"

/-- `getAnyValidTab` of the Router: rejects when no tab is open, else the
first open tab whose URL is not on the restricted internal scheme. -/
def getAnyValidTab (b : BrowserState) : Except String Tab :=
  match b.openTabs with
  | [] => .error "No tabs available"
  | _ =>
    match b.openTabs.find? (fun t => !(startsWithCh t.url "chrome://")) with
    | some t => .ok t
    | none => .error "No usable tab"

/-- The default URL `createNewTab` opens when called without argument. -/
def defaultNewTabUrl : String := "https://www.google.com"

/-- `createNewTab` of the Router: create a tab at the URL and return it
once loaded, recording the creation. -/
def createNewTab (env : RouterEnv) (url : String) : Tab × RouterEffects :=
  (env.nextTab url, { tabsCreated := [url] })

/-- `getUsableTab` of the Router: active tab, else any valid tab, else a
freshly created tab when `createIfMissing`, else a rejection. -/
def getUsableTab (env : RouterEnv) (createIfMissing : Bool) :
    Except String (Tab × RouterEffects) :=
  match getActiveTab env.browser with
  | .ok t => .ok (t, {})
  | .error _ =>
    match getAnyValidTab env.browser with
    | .ok t => .ok (t, {})
    | .error _ =>
      if createIfMissing then .ok (createNewTab env defaultNewTabUrl)
      else .error "No usable tab found"

/-- `sendToContent` of the Router: resolve a tab (its own failure is caught
and becomes a failure result), then relay the command; a messaging failure
propagates as an exception, since the JS code returns the send promise from
inside the try block without awaiting it. -/
def sendToContent (env : RouterEnv) (payload : Command) (allowCreate : Bool) :
    Except String Result × RouterEffects :=
  match getUsableTab env allowCreate with
  | .error e => (.ok { success := false, error := some e }, {})
  | .ok te =>
    match env.contentReply payload with
    | .ok r => (.ok r, { te.2 with sent := te.2.sent ++ [payload] })
    | .error e => (.error e, { te.2 with sent := te.2.sent ++ [payload] })

/-- The `search` intent handler of the Router. -/
def handleSearch (env : RouterEnv) (data : IntentPayload) :
    Except String Result × RouterEffects :=
  sendToContent env { type := "SEARCH", payload := data } true

/-- The `website_search` intent handler of the Router. -/
def handleWebsiteSearch (env : RouterEnv) (data : IntentPayload) :
    Except String Result × RouterEffects :=
  sendToContent env { type := "WEBSITE_SEARCH", payload := data } true

/-- The `form_fill` intent handler of the Router. -/
def handleFormFill (env : RouterEnv) (data : IntentPayload) :
    Except String Result × RouterEffects :=
  sendToContent env { type := "FORM_FILL", payload := data } true

/-- The `book_ticket` intent handler of the Router. -/
def handleBooking (env : RouterEnv) (data : IntentPayload) :
    Except String Result × RouterEffects :=
  sendToContent env { type := "BOOK_TICKET", payload := data } true

/-- The `open_site` intent handler of the Router: requires a truthy
`website` entity, prefixes the scheme when the URL does not start with
"http", opens a tab there and reports its id; it relays nothing. -/
def handleOpenSite (env : RouterEnv) (data : IntentPayload) :
    Except String Result × RouterEffects :=
  if !truthy data.entities.website then
    (.ok { success := false, error := some "No website given" }, {})
  else
    let url0 := data.entities.website.getD ""
    let url := if startsWithCh url0 "http" then url0 else "https://" ++ url0
    let te := createNewTab env url
    (.ok { success := true, tabId := some te.1.id, message := some "Website opened" },
     te.2)

/-- The `qna` intent handler of the Router: local pass-through. -/
def handleQnA (_env : RouterEnv) (data : IntentPayload) :
    Except String Result × RouterEffects :=
  (.ok { success := true, message := some data.message }, {})

/-- The `summarize` intent handler of the Router. -/
def handleSummarize (env : RouterEnv) (data : IntentPayload) :
    Except String Result × RouterEffects :=
  sendToContent env { type := "SUMMARIZE", payload := data } true

/-- The `other` intent handler of the Router: local pass-through. -/
def handleOther (_env : RouterEnv) (data : IntentPayload) :
    Except String Result × RouterEffects :=
  (.ok { success := true, message := some data.message }, {})

/-- `routeIntent` of the Router: the switch over the intent name. -/
def routeIntent (env : RouterEnv) (intentData : IntentPayload) :
    Except String Result × RouterEffects :=
  match intentData.intent with
  | "search" => handleSearch env intentData
  | "website_search" => handleWebsiteSearch env intentData
  | "form_fill" => handleFormFill env intentData
  | "book_ticket" => handleBooking env intentData
  | "open_site" => handleOpenSite env intentData
  | "qna" => handleQnA env intentData
  | "summarize" => handleSummarize env intentData
  | "other" => handleOther env intentData
  | _ => (.ok { success := false, error := some "Unknown intent" }, {})

end Router

/- ## UI Controller -/

namespace UI

/-- The UI Controller's internal state object. -/
structure UIState where
  isListening : Bool := false
  currentTranscript : String := ""
  finalTranscript : String := ""
  currentResponse : String := ""
  hasError : Bool := false
  sessionStartTime : Option Nat := none
deriving Repr, DecidableEq

instance : Inhabited UIState := ⟨{}⟩

/-- One HTTP request issued by the controller. -/
structure FetchReq where
  url : String
  method : String
  bodyText : String
deriving Repr, DecidableEq

/-- The JSON body the backend replies with (at least a `message` field). -/
structure BackendResult where
  message : Option String := none
deriving Repr, DecidableEq

/-- Observable side effects of one UI event-handler run. -/
structure UIEffects where
  fetches : List FetchReq := []
  displayedTranscripts : List (String × Bool) := []
  displayedResponses : List String := []
  spoke : List String := []
  routerSends : Nat := 0
  errorsShown : List String := []
deriving Repr, DecidableEq

/-- The backend base URL constant of `ui.js`. -/
def BACKEND_BASE_URL : String := "http://localhost:3000/api"

/-- `processTranscript` of the UI Controller: returns without any call when
the transcript is falsy or trims to nothing; otherwise POSTs the transcript
to the backend; on success it displays the returned message (or a
fallback), speaks a truthy message, and forwards the result to the Router;
on failure it shows an error. The backend's answer is the external
parameter. -/
def processTranscript (backend : Option BackendResult) (st : UIState)
    (transcript : String) : UIState × UIEffects :=
  if transcript == "" || jsTrimCh transcript.toList == [] then (st, {})
  else
    let req : FetchReq :=
      { url := BACKEND_BASE_URL ++ "/process", method := "POST",
        bodyText := transcript }
    match backend with
    | none => (st, { fetches := [req], errorsShown := ["processing-failed"] })
    | some r =>
      let msg := if truthy r.message then r.message.getD "" else "Done"
      ({ st with currentResponse := msg },
       { fetches := [req], displayedResponses := [msg],
         spoke := if truthy r.message then [r.message.getD ""] else [],
         routerSends := 1 })

/-- `handleTranscript` of the UI Controller: a final transcript is stored,
displayed and processed; an interim transcript only updates the stored
interim text and the live display. -/
def handleTranscript (backend : Option BackendResult) (st : UIState)
    (transcript : String) (isFinal : Bool) : UIState × UIEffects :=
  if isFinal then
    let st1 := { st with finalTranscript := transcript, currentTranscript := "" }
    let out := processTranscript backend st1 transcript
    (out.1, { out.2 with
              displayedTranscripts := (transcript, true) :: out.2.displayedTranscripts })
  else
    ({ st with currentTranscript := transcript },
     { displayedTranscripts := [(transcript, false)] })

/- ### Object heap for the aliasing behaviour of getState -/

/-- Read an address in a list-modelled object store (a dangling address
reads the default object, as far as this model cares). -/
def heapReadL : List UIState → Nat → UIState
  | [], _ => {}
  | s :: _, 0 => s
  | _ :: rest, n + 1 => heapReadL rest n

/-- Write an address in a list-modelled object store. -/
def heapWriteL : List UIState → Nat → UIState → List UIState
  | [], _, _ => []
  | _ :: rest, 0, v => v :: rest
  | s :: rest, n + 1, v => s :: heapWriteL rest n v

/-- A heap of UI state objects; an address is an index. -/
structure Heap where
  objs : List UIState
deriving Repr, DecidableEq

/-- Read one object of the heap. -/
def heapRead (h : Heap) (a : Nat) : UIState := heapReadL h.objs a

/-- Write one object of the heap. -/
def heapWrite (h : Heap) (a : Nat) (v : UIState) : Heap :=
  { objs := heapWriteL h.objs a v }

/-- `VoiceReplicaUI.getState` of `ui.js`: spread the controller's state
object into a fresh object and return that object, that is, allocate a new
address holding a field-wise copy of the object at `self`. -/
def getState (h : Heap) (self : Nat) : Heap × Nat :=
  ({ objs := h.objs ++ [heapRead h self] }, h.objs.length)

end UI

end Voice2Web

/-! ## Supporting lemmas -/

namespace Voice2Web

/-- `setFirstValue` returns nothing exactly when no element matches. -/
theorem setFirstValue_eq_none (p : Elem → Bool) (v : String) (els : List Elem) :
    setFirstValue p v els = none ↔ els.any p = false := by
  induction els with
  | nil => simp [setFirstValue]
  | cons e rest ih =>
    by_cases hp : p e
    · simp [setFirstValue, hp]
    · cases hr : setFirstValue p v rest with
      | none =>
        simp [setFirstValue, hp, hr, ih.mp hr]
      | some pr =>
        obtain ⟨els', e'⟩ := pr
        have hany : rest.any p = true := by
          cases h2 : rest.any p
          · exact absurd (ih.mpr h2) (by simp [hr])
          · rfl
        simp [setFirstValue, hp, hr, hany]

/-- Setting a value changes no element attribute a value-blind predicate
reads, so matches are preserved. -/
theorem setFirstValue_any (p : Elem → Bool) (v : String) (q : Elem → Bool)
    (hq : ∀ x : Elem, q { x with value := v } = q x) :
    ∀ (els els' : List Elem) (e : Elem),
      setFirstValue p v els = some (els', e) → els'.any q = els.any q := by
  intro els
  induction els with
  | nil => intro els' e h; simp [setFirstValue] at h
  | cons x rest ih =>
    intro els' e h
    by_cases hp : p x
    · simp [setFirstValue, hp] at h
      obtain ⟨h1, _⟩ := h
      subst h1
      simp [List.any_cons, hq x]
    · cases hr : setFirstValue p v rest with
      | none => simp [setFirstValue, hp, hr] at h
      | some pr =>
        obtain ⟨rest', e'⟩ := pr
        simp [setFirstValue, hp, hr] at h
        obtain ⟨h1, _⟩ := h
        subst h1
        simp [List.any_cons, ih rest' e' hr]

/-- Lists filtered by pointwise-equal predicates coincide. -/
theorem filterCongrList {α : Type} (p q : α → Bool) (l : List α)
    (h : ∀ x ∈ l, p x = q x) : l.filter p = l.filter q := by
  induction l with
  | nil => rfl
  | cons x rest ih =>
    have hx := h x (List.mem_cons_self x rest)
    simp only [List.filter_cons, hx]
    rw [ih (fun y hy => h y (List.mem_cons_of_mem x hy))]

/-- The FORM_FILL element predicate never reads the value attribute. -/
theorem matchesFormField_value (k v : String) (x : Elem) :
    Content.matchesFormField k { x with value := v } = Content.matchesFormField k x := rfl

/-- The FORM_FILL entry loop fills exactly the entries that match some
element of the original page, dispatches two events per filled entry, and
leaves the match structure of the page unchanged. -/
theorem fillFieldsLoop_spec (fs : List (String × String)) :
    ∀ els : List Elem,
      (Content.fillFieldsLoop fs els).2.1 =
        (fs.filter (fun kv => els.any (Content.matchesFormField kv.1))).length ∧
      (Content.fillFieldsLoop fs els).2.2.length =
        2 * (fs.filter (fun kv => els.any (Content.matchesFormField kv.1))).length ∧
      ∀ k, (Content.fillFieldsLoop fs els).1.any (Content.matchesFormField k) =
        els.any (Content.matchesFormField k) := by
  induction fs with
  | nil => intro els; simp [Content.fillFieldsLoop]
  | cons kv rest ih =>
    intro els
    obtain ⟨k, v⟩ := kv
    cases hr : setFirstValue (Content.matchesFormField k) v els with
    | none =>
      have hany : els.any (Content.matchesFormField k) = false :=
        (setFirstValue_eq_none _ _ _).mp hr
      have ihe := ih els
      simp [Content.fillFieldsLoop, hr, hany, ihe.1, ihe.2.1, ihe.2.2]
    | some pr =>
      obtain ⟨els', e⟩ := pr
      have hany : els.any (Content.matchesFormField k) = true := by
        cases h2 : els.any (Content.matchesFormField k)
        · have hnone := (setFirstValue_eq_none (Content.matchesFormField k) v els).mpr h2
          rw [hr] at hnone
          simp at hnone
        · rfl
      have hpres : ∀ k', els'.any (Content.matchesFormField k') =
          els.any (Content.matchesFormField k') :=
        fun k' =>
          setFirstValue_any _ v _ (fun x => matchesFormField_value k' v x) els els' e hr
      have hfil : rest.filter (fun kv => els'.any (Content.matchesFormField kv.1)) =
          rest.filter (fun kv => els.any (Content.matchesFormField kv.1)) :=
        filterCongrList _ _ rest (fun x _ => hpres x.1)
      have ihe := ih els'
      refine ⟨?_, ?_, ?_⟩
      · simp [Content.fillFieldsLoop, hr, hany, ihe.1, hfil, Nat.add_comm]
      · simp [Content.fillFieldsLoop, hr, hany, ihe.2.1, hfil]
        ring
      · intro k'
        simp [Content.fillFieldsLoop, hr, ihe.2.2 k', hpres k']

/-- The Boolean no-adjacent-whitespace check agrees with the chain of the
corresponding binary relation. -/
theorem noAdjWs_iff_chain (l : List Char) :
    noAdjWs l = true ↔
      List.Chain' (fun a b => ¬(isJsWs a = true ∧ isJsWs b = true)) l := by
  induction l with
  | nil => simp [noAdjWs]
  | cons c rest ih =>
    cases rest with
    | nil => simp [noAdjWs]
    | cons c2 r2 =>
      rw [List.chain'_cons, ← ih]
      simp only [noAdjWs, Bool.and_eq_true, Bool.not_eq_true']
      constructor
      · intro h
        refine ⟨?_, h.2⟩
        intro hws
        rw [hws.1, hws.2] at h
        simp at h
      · intro h
        refine ⟨?_, h.2⟩
        cases hc : isJsWs c <;> cases hc2 : isJsWs c2 <;> simp_all

/-- Collapsing puts the head's collapsed character first. -/
theorem collapseWsCh_head (rest : List Char) :
    ∀ c : Char, ∃ t, collapseWsCh (c :: rest) = (if isJsWs c then ' ' else c) :: t := by
  induction rest with
  | nil =>
    intro c
    refine ⟨[], ?_⟩
    cases hc : isJsWs c <;> simp [collapseWsCh, hc]
  | cons c2 r2 ih =>
    intro c
    cases hb : (isJsWs c && isJsWs c2) with
    | true =>
      obtain ⟨t, ht⟩ := ih c2
      have hc : isJsWs c = true := ((Bool.and_eq_true _ _).mp hb).1
      have hc2 : isJsWs c2 = true := ((Bool.and_eq_true _ _).mp hb).2
      refine ⟨t, ?_⟩
      simp [collapseWsCh, hb, ht, hc, hc2]
    | false =>
      refine ⟨collapseWsCh (c2 :: r2), ?_⟩
      simp [collapseWsCh, hb]

/-- Collapsing whitespace runs leaves no two adjacent whitespace
characters. -/
theorem collapseWsCh_noAdj : ∀ l : List Char, noAdjWs (collapseWsCh l) = true := by
  intro l
  induction l with
  | nil => rfl
  | cons c rest ih =>
    cases rest with
    | nil => cases hc : isJsWs c <;> simp [collapseWsCh, hc, noAdjWs]
    | cons c2 r2 =>
      cases hb : (isJsWs c && isJsWs c2) with
      | true =>
        have : collapseWsCh (c :: c2 :: r2) = collapseWsCh (c2 :: r2) := by
          simp [collapseWsCh, hb]
        rw [this]
        exact ih
      | false =>
        have hstep : collapseWsCh (c :: c2 :: r2) =
            (if isJsWs c then ' ' else c) :: collapseWsCh (c2 :: r2) := by
          simp [collapseWsCh, hb]
        obtain ⟨t, ht⟩ := collapseWsCh_head r2 c2
        have htail : noAdjWs (collapseWsCh (c2 :: r2)) = true := ih
        rw [hstep, ht]
        rw [ht] at htail
        simp only [noAdjWs, Bool.and_eq_true]
        refine ⟨?_, htail⟩
        cases hc : isJsWs c <;> cases hc2 : isJsWs c2
        · simp [hc, hc2]
        · simp [hc, hc2]
        · simp [hc, hc2]
        · rw [hc, hc2] at hb
          simp at hb

/-- The trim-and-truncate pipeline preserves the absence of adjacent
whitespace. -/
theorem noAdjWs_trim_take (l : List Char) (n : Nat) (h : noAdjWs l = true) :
    noAdjWs ((jsTrimCh l).take n) = true := by
  have symm : ∀ a b : Char, ¬(isJsWs a = true ∧ isJsWs b = true) →
      ¬(isJsWs b = true ∧ isJsWs a = true) := fun a b hab hba => hab ⟨hba.2, hba.1⟩
  have h1 := (noAdjWs_iff_chain l).mp h
  have h2 := h1.suffix (List.dropWhile_suffix isJsWs)
  have h3 := List.chain'_reverse.mpr (h2.imp (fun a b => symm a b))
  have h4 := h3.suffix (List.dropWhile_suffix isJsWs)
  have h5 := List.chain'_reverse.mpr (h4.imp (fun a b => symm a b))
  exact (noAdjWs_iff_chain _).mpr (h5.take n)

/-! ## Claims -/

/-- Claim C7: for every payload and page, dispatching BOOK_TICKET and
SUMMARIZE produces a success result; neither handler has a failure path,
even when no entity is present and no element matches. -/
theorem bookingSummarizeAlwaysSuccess (data : IntentPayload) (page : Page) :
    (Content.contentDispatch { type := "BOOK_TICKET", payload := data } page).1.success = true ∧
    (Content.contentDispatch { type := "SUMMARIZE", payload := data } page).1.success = true := by
  exact ⟨rfl, rfl⟩

/-- Claim C8: the SUMMARIZE handler returns the page body text with
whitespace runs collapsed to single spaces, trimmed, and truncated to the
first 5000 characters — so the summary never exceeds 5000 characters and
never holds two adjacent whitespace characters. -/
theorem summarizeBoundedSummary (page : Page) :
    ∃ s : String,
      (Content.handleSummarize page).1 =
        .ok { success := true, summary := some s,
              message := some "Page content extracted" } ∧
      s.toList = (jsTrimCh (collapseWsCh page.bodyText.toList)).take 5000 ∧
      s.length ≤ 5000 ∧
      noAdjWs s.toList = true := by
  refine ⟨String.mk ((jsTrimCh (collapseWsCh page.bodyText.toList)).take 5000),
    rfl, rfl, ?_, ?_⟩
  · show (List.take 5000 (jsTrimCh (collapseWsCh page.bodyText.toList))).length ≤ 5000
    rw [List.length_take]
    exact Nat.min_le_left _ _
  · show noAdjWs ((jsTrimCh (collapseWsCh page.bodyText.toList)).take 5000) = true
    exact noAdjWs_trim_take _ 5000 (collapseWsCh_noAdj _)

/-- Claim C1 counterexample: the intent name "summarize" lies outside the
spec's listed known set, yet routeIntent relays it to the Content
Dispatcher instead of answering with the unknown-intent failure. -/
theorem routeIntentSummarizeCx :
    (Router.routeIntent
      { browser := { activeTab := some { id := 1, url := "https://a.com" }, openTabs := [] },
        nextTab := fun u => { id := 2, url := u },
        contentReply := fun _ => .ok { success := true, message := some "ok" } }
      { intent := "summarize" }).1 =
      .ok { success := true, message := some "ok" } ∧
    ({ success := true, message := some "ok" } : Result) ≠
      { success := false, error := some "Unknown intent" } := by
  exact ⟨rfl, by decide⟩

/-- Claim C1 (amended): routeIntent answers the unknown-intent failure
exactly for intent names outside the eight known ones — search,
website_search, form_fill, book_ticket, open_site, qna, summarize, other —
and each known name runs its own handler. -/
theorem routeIntentSpec (env : RouterEnv) (d : IntentPayload) :
    (d.intent ∉ (["search", "website_search", "form_fill", "book_ticket",
        "open_site", "qna", "summarize", "other"] : List String) →
      Router.routeIntent env d =
        (.ok { success := false, error := some "Unknown intent" }, {})) ∧
    (d.intent = "search" → Router.routeIntent env d = Router.handleSearch env d) ∧
    (d.intent = "website_search" → Router.routeIntent env d = Router.handleWebsiteSearch env d) ∧
    (d.intent = "form_fill" → Router.routeIntent env d = Router.handleFormFill env d) ∧
    (d.intent = "book_ticket" → Router.routeIntent env d = Router.handleBooking env d) ∧
    (d.intent = "open_site" → Router.routeIntent env d = Router.handleOpenSite env d) ∧
    (d.intent = "qna" → Router.routeIntent env d = Router.handleQnA env d) ∧
    (d.intent = "summarize" → Router.routeIntent env d = Router.handleSummarize env d) ∧
    (d.intent = "other" → Router.routeIntent env d = Router.handleOther env d) := by
  refine ⟨?_, ?_, ?_, ?_, ?_, ?_, ?_, ?_, ?_⟩
  · intro h
    simp only [Router.routeIntent]
    split <;> simp_all
  all_goals
    intro h
    simp only [Router.routeIntent]
    rw [h]
  all_goals rfl

/-- Claim C1 witness: a concrete unknown intent gets the unknown-intent
failure, and a concrete known intent runs its handler. -/
theorem routeIntentWitness :
    Router.routeIntent
      { browser := {}, nextTab := fun u => { id := 3, url := u },
        contentReply := fun _ => .ok { success := true } }
      { intent := "dance" } =
      (.ok { success := false, error := some "Unknown intent" }, {}) ∧
    Router.routeIntent
      { browser := {}, nextTab := fun u => { id := 3, url := u },
        contentReply := fun _ => .ok { success := true } }
      { intent := "qna", message := "hi" } =
      Router.handleQnA
        { browser := {}, nextTab := fun u => { id := 3, url := u },
          contentReply := fun _ => .ok { success := true } }
        { intent := "qna", message := "hi" } := by
  constructor
  · exact (routeIntentSpec _ _).1 (by decide)
  · exact (routeIntentSpec _ _).2.2.2.2.2.2.1 rfl

/-- Claim C2: tab resolution returns the active tab when one exists; else
the first open tab whose URL is not on the restricted internal scheme,
creating nothing; else a newly created tab when createIfMissing, and a
no-usable-tab failure when not. -/
theorem getUsableTabSpec (env : RouterEnv) (b : Bool) :
    (∀ t, env.browser.activeTab = some t → Router.getUsableTab env b = .ok (t, {})) ∧
    (env.browser.activeTab = none →
      ∀ t, env.browser.openTabs.find? (fun t => !(startsWithCh t.url "chrome://")) = some t →
        Router.getUsableTab env b = .ok (t, {}) ∧ t ∈ env.browser.openTabs ∧
          startsWithCh t.url "chrome://" = false) ∧
    (env.browser.activeTab = none →
      env.browser.openTabs.find? (fun t => !(startsWithCh t.url "chrome://")) = none →
        Router.getUsableTab env true =
          .ok (env.nextTab Router.defaultNewTabUrl,
               { tabsCreated := [Router.defaultNewTabUrl] }) ∧
        Router.getUsableTab env false = .error "No usable tab found") := by
  refine ⟨?_, ?_, ?_⟩
  · intro t ht
    simp [Router.getUsableTab, Router.getActiveTab, ht]
  · intro hact t hfind
    have hmem : t ∈ env.browser.openTabs := List.mem_of_find?_eq_some hfind
    have hp := List.find?_some hfind
    refine ⟨?_, hmem, by simpa using hp⟩
    simp only [Router.getUsableTab, Router.getActiveTab, hact, Router.getAnyValidTab]
    cases hops : env.browser.openTabs with
    | nil => rw [hops] at hfind; simp at hfind
    | cons a rest => rw [hops] at hfind; simp [hfind]
  · intro hact hfind
    constructor <;>
    · simp only [Router.getUsableTab, Router.getActiveTab, hact, Router.getAnyValidTab]
      cases hops : env.browser.openTabs with
      | nil => simp [Router.createNewTab]
      | cons a rest => rw [hops] at hfind; simp [hfind, Router.createNewTab]

/-- Claim C2 witness: with no active tab, a restricted tab and one usable
tab open, and createIfMissing false, resolution returns the usable tab and
creates nothing. -/
theorem getUsableTabWitness :
    Router.getUsableTab
      { browser := { activeTab := none,
                     openTabs := [{ id := 1, url := "chrome://settings" },
                                  { id := 2, url := "https://a.com" }] },
        nextTab := fun u => { id := 9, url := u },
        contentReply := fun _ => .ok { success := true } } false =
      .ok ({ id := 2, url := "https://a.com" }, {}) ∧
    Router.getUsableTab
      { browser := { activeTab := some { id := 4, url := "https://b.com" },
                     openTabs := [] },
        nextTab := fun u => { id := 9, url := u },
        contentReply := fun _ => .ok { success := true } } true =
      .ok ({ id := 4, url := "https://b.com" }, {}) := by
  constructor
  · exact ((getUsableTabSpec _ false).2.1 rfl { id := 2, url := "https://a.com" }
      (by decide)).1
  · exact (getUsableTabSpec _ true).1 { id := 4, url := "https://b.com" } rfl

/-- Claim C3 counterexample: the website "httpx.com" holds no colon, hence
no scheme, yet open_site opens it without the https prefix, because the
code tests startsWith http instead of scheme presence. -/
theorem openSiteSchemeCx :
    specHasScheme "httpx.com" = false ∧
    Router.handleOpenSite
      { browser := {}, nextTab := fun u => { id := 7, url := u },
        contentReply := fun _ => .ok { success := true } }
      { intent := "open_site", entities := { website := some "httpx.com" } } =
      (.ok { success := true, tabId := some 7, message := some "Website opened" },
       { tabsCreated := ["httpx.com"], sent := [] }) ∧
    ("httpx.com" : String) ≠ "https://httpx.com" := by
  refine ⟨by decide, rfl, by decide⟩

/-- Claim C3 (amended): open_site with no (or an empty) website entity
fails with "No website given", creating and relaying nothing; with a
nonempty website it opens one tab at the URL — prefixed with https:// when
the URL does not already start with "http" — and reports success with the
new tab's id; it never relays a command to the Content Dispatcher. -/
theorem handleOpenSiteSpec (env : RouterEnv) (d : IntentPayload) :
    (truthy d.entities.website = false →
      Router.handleOpenSite env d =
        (.ok { success := false, error := some "No website given" },
         { tabsCreated := [], sent := [] })) ∧
    (∀ w, d.entities.website = some w → w ≠ "" →
      Router.handleOpenSite env d =
        (.ok { success := true,
               tabId := some (env.nextTab
                 (if startsWithCh w "http" then w else "https://" ++ w)).id,
               message := some "Website opened" },
         { tabsCreated := [if startsWithCh w "http" then w else "https://" ++ w],
           sent := [] })) := by
  constructor
  · intro h
    simp [Router.handleOpenSite, h]
  · intro w hw hne
    have ht : truthy (some w) = true := by simp [truthy, hne]
    simp [Router.handleOpenSite, hw, ht, Router.createNewTab]

/-- Claim C3 witness: the website "example.com" yields a tab at
"https://example.com" carrying the new tab's id, and a payload without a
website entity yields the no-website failure. -/
theorem handleOpenSiteWitness :
    Router.handleOpenSite
      { browser := {}, nextTab := fun u => { id := 7, url := u },
        contentReply := fun _ => .ok { success := true } }
      { intent := "open_site", entities := { website := some "example.com" } } =
      (.ok { success := true, tabId := some 7, message := some "Website opened" },
       { tabsCreated := ["https://example.com"], sent := [] }) ∧
    Router.handleOpenSite
      { browser := {}, nextTab := fun u => { id := 7, url := u },
        contentReply := fun _ => .ok { success := true } }
      { intent := "open_site" } =
      (.ok { success := false, error := some "No website given" },
       { tabsCreated := [], sent := [] }) := by
  constructor
  · exact (handleOpenSiteSpec _ _).2 "example.com" rfl (by decide)
  · exact (handleOpenSiteSpec _ _).1 (by decide)

/-- Claim C6 counterexample: off a search engine host with a query
present, the handler's redirect result carries the message "Redirecting to
Google", not the exact message "Redirecting" the claim states. -/
theorem googleSearchMessageCx :
    (Content.handleGoogleSearch
      { intent := "search", entities := { query := some "a" } }
      { hostname := "example.com" }).1 =
      .ok { success := true, message := some "Redirecting to Google" } ∧
    some "Redirecting to Google" ≠ some "Redirecting" := by
  exact ⟨rfl, by decide⟩

/-- Claim C6 (amended): dispatching SEARCH with a nonempty query on a page
whose host is not a google host navigates to the engine with the query
percent-encoded in the URL and returns at once — performing no wait — the
success result with message "Redirecting to Google". -/
theorem googleSearchRedirect (data : IntentPayload) (page : Page) (q : String)
    (hq : data.entities.query = some q) (hne : q ≠ "")
    (hhost : strIncludes page.hostname "google" = false) :
    (Content.handleGoogleSearch data page).1 =
      .ok { success := true, message := some "Redirecting to Google" } ∧
    (Content.handleGoogleSearch data page).2.2.navigatedTo =
      some ("https://www.google.com/search?q=" ++ encodeURIComponent q) ∧
    (Content.handleGoogleSearch data page).2.2.waits = [] := by
  have ht : truthy (some q) = true := by simp [truthy, hne]
  refine ⟨?_, ?_, ?_⟩ <;> simp [Content.handleGoogleSearch, hq, ht, hhost]

/-- Claim C6 witness: a concrete SEARCH off the engine host redirects with
the encoded query and no waits. -/
theorem googleSearchRedirectWitness :
    (Content.handleGoogleSearch
      { intent := "search", entities := { query := some "cat videos" } }
      { hostname := "www.bing.com" }).2.2.navigatedTo =
      some "https://www.google.com/search?q=cat%20videos" ∧
    (Content.handleGoogleSearch
      { intent := "search", entities := { query := some "cat videos" } }
      { hostname := "www.bing.com" }).2.2.waits = [] := by
  have h := googleSearchRedirect
    { intent := "search", entities := { query := some "cat videos" } }
    { hostname := "www.bing.com" } "cat videos" rfl (by decide) (by decide)
  exact ⟨h.2.1.trans (by decide), h.2.2⟩

/-- Claim C4: FORM_FILL with missing or empty form_fields yields a
structured failure; otherwise every entry with a partial name or id match
is filled with two events dispatched, unmatched entries are skipped
silently, and the handler succeeds reporting the number of entries
actually filled, which may be zero. -/
theorem formFillSpec (data : IntentPayload) (page : Page) :
    ((data.entities.form_fields = none ∨ data.entities.form_fields = some []) →
      (Content.contentDispatch { type := "FORM_FILL", payload := data } page).1 =
        { success := false, error := some "No form fields provided" }) ∧
    (∀ fs, data.entities.form_fields = some fs → fs ≠ [] →
      (Content.contentDispatch { type := "FORM_FILL", payload := data } page).1 =
        { success := true,
          message := some ("Filled " ++
            toString (fs.filter (fun kv =>
              page.elements.any (Content.matchesFormField kv.1))).length ++ " fields") } ∧
      (Content.contentDispatch { type := "FORM_FILL", payload := data } page).2.2.events.length =
        2 * (fs.filter (fun kv =>
          page.elements.any (Content.matchesFormField kv.1))).length) := by
  constructor
  · rintro (h | h) <;> simp [Content.contentDispatch, Content.handleFormFill, h]
  · intro fs hfs hne
    have hlen : fs.isEmpty = false := by
      cases fs
      · exact absurd rfl hne
      · rfl
    have hl := fillFieldsLoop_spec fs page.elements
    constructor
    · simp [Content.contentDispatch, Content.handleFormFill, hfs, hlen, hl.1]
    · simp [Content.contentDispatch, Content.handleFormFill, hfs, hlen, hl.2.1]

/-- Claim C4 witness: two entries with matching inputs fill both and
report count 2; one entry with no match reports count 0 yet succeeds; an
empty mapping is a structured failure. -/
theorem formFillWitness :
    (Content.contentDispatch
      { type := "FORM_FILL",
        payload := { intent := "form_fill",
                     entities := { form_fields := some [("email", "a@b.com"), ("name", "X")] } } }
      { hostname := "x.com",
        elements := [{ tag := "input", name := some "user_email" },
                     { tag := "input", id := some "fullname" }] }).1 =
      { success := true, message := some "Filled 2 fields" } ∧
    (Content.contentDispatch
      { type := "FORM_FILL",
        payload := { intent := "form_fill",
                     entities := { form_fields := some [("email", "a@b.com")] } } }
      { hostname := "x.com" }).1 =
      { success := true, message := some "Filled 0 fields" } ∧
    (Content.contentDispatch
      { type := "FORM_FILL",
        payload := { intent := "form_fill",
                     entities := { form_fields := some [] } } }
      { hostname := "x.com" }).1 =
      { success := false, error := some "No form fields provided" } := by
  refine ⟨?_, ?_, ?_⟩
  · exact (((formFillSpec _ _).2 [("email", "a@b.com"), ("name", "X")] rfl
      (by decide)).1).trans (by decide)
  · exact (((formFillSpec _ _).2 [("email", "a@b.com")] rfl (by decide)).1).trans
      (by decide)
  · exact (formFillSpec _ _).1 (Or.inr rfl)

/-- Claim C5: WEBSITE_SEARCH with a nonempty query fails exactly when no
element matches the heuristic search-box selector, and that failure
reaches the caller as a structured failure result through the listener's
catch, not as an uncaught exception. -/
theorem websiteSearchSpec (data : IntentPayload) (page : Page) (q : String)
    (hq : data.entities.query = some q) (hne : q ≠ "") :
    ((∃ err, (Content.handleWebsiteSearch data page).1 = .error err) ↔
      page.elements.any Content.isSearchBox = false) ∧
    (page.elements.any Content.isSearchBox = false →
      (Content.contentDispatch { type := "WEBSITE_SEARCH", payload := data } page).1 =
        { success := false, error := some "No search box found on website" }) := by
  have ht : truthy (some q) = true := by simp [truthy, hne]
  cases hsv : setFirstValue Content.isSearchBox q page.elements with
  | none =>
    have hany := (setFirstValue_eq_none Content.isSearchBox q page.elements).mp hsv
    constructor
    · constructor
      · intro _
        exact hany
      · intro _
        exact ⟨"No search box found on website",
          by simp [Content.handleWebsiteSearch, hq, ht, hsv]⟩
    · intro _
      simp [Content.contentDispatch, Content.handleWebsiteSearch, hq, ht, hsv]
  | some pr =>
    obtain ⟨els', e⟩ := pr
    have hany : page.elements.any Content.isSearchBox = true := by
      cases h2 : page.elements.any Content.isSearchBox
      · have h0 := (setFirstValue_eq_none Content.isSearchBox q page.elements).mpr h2
        rw [hsv] at h0
        simp at h0
      · rfl
    constructor
    · constructor
      · rintro ⟨err, herr⟩
        cases hf : e.inForm <;>
          simp [Content.handleWebsiteSearch, hq, ht, hsv, hf] at herr
      · intro hfalse
        rw [hany] at hfalse
        simp at hfalse
    · intro hfalse
      rw [hany] at hfalse
      simp at hfalse

/-- Claim C5 witness: a page with no search box turns the WEBSITE_SEARCH
failure into the structured no-search-box result. -/
theorem websiteSearchWitness :
    (Content.contentDispatch
      { type := "WEBSITE_SEARCH",
        payload := { intent := "website_search",
                     entities := { query := some "cats" } } }
      { hostname := "x.com",
        elements := [{ tag := "input", name := some "username" }] }).1 =
      { success := false, error := some "No search box found on website" } := by
  exact (websiteSearchSpec
    { intent := "website_search", entities := { query := some "cats" } }
    { hostname := "x.com", elements := [{ tag := "input", name := some "username" }] }
    "cats" rfl (by decide)).2 (by decide)

/-- Claim C9 counterexample: an empty final transcript triggers no backend
call at all, because processTranscript returns before fetching when the
transcript trims to nothing. -/
theorem transcriptEmptyFinalCx :
    (UI.handleTranscript none {} "" true).2.fetches = [] ∧
    (UI.handleTranscript none {} "" true).2.fetches.length ≠ 1 := by
  exact ⟨rfl, by decide⟩

/-- Claim C9 (amended): a final transcript whose trimmed text is nonempty
triggers exactly one backend call, a POST of the transcript to the process
endpoint; a final transcript that is empty or whitespace-only triggers
none; an interim transcript triggers none and only updates the live
transcript display. -/
theorem handleTranscriptCalls (backend : Option UI.BackendResult)
    (st : UI.UIState) (t : String) :
    (jsTrimCh t.toList ≠ [] →
      (UI.handleTranscript backend st t true).2.fetches =
        [{ url := UI.BACKEND_BASE_URL ++ "/process", method := "POST",
           bodyText := t }]) ∧
    (jsTrimCh t.toList = [] →
      (UI.handleTranscript backend st t true).2.fetches = []) ∧
    ((UI.handleTranscript backend st t false).2.fetches = [] ∧
     (UI.handleTranscript backend st t false).2.displayedTranscripts = [(t, false)]) := by
  refine ⟨?_, ?_, ?_, ?_⟩
  · intro h
    have h' : ¬ jsTrimCh t.data = [] := h
    have hne : ¬ t = "" := by
      intro he
      apply h
      rw [he]
      rfl
    cases backend <;>
      simp [UI.handleTranscript, UI.processTranscript, hne, h']
  · intro h
    have h' : jsTrimCh t.data = [] := h
    simp [UI.handleTranscript, UI.processTranscript, h']
  · simp [UI.handleTranscript]
  · simp [UI.handleTranscript]

/-- Claim C9 witness: the final transcript "hello" issues exactly the one
POST carrying it; the whitespace-only final transcript issues none; the
interim transcript "hel" issues none. -/
theorem handleTranscriptWitness :
    (UI.handleTranscript none {} "hello" true).2.fetches =
      [{ url := "http://localhost:3000/api/process", method := "POST",
         bodyText := "hello" }] ∧
    (UI.handleTranscript none {} "  " true).2.fetches = [] ∧
    (UI.handleTranscript none {} "hel" false).2.fetches = [] := by
  refine ⟨?_, ?_, ?_⟩
  · exact ((handleTranscriptCalls none {} "hello").1 (by decide)).trans (by decide)
  · exact (handleTranscriptCalls none {} "  ").2.1 (by decide)
  · exact (handleTranscriptCalls none {} "hel").2.2.1

/-- Reading below an appended segment reads the original store. -/
theorem heapReadL_append_lt (l l' : List UI.UIState) :
    ∀ i : Nat, i < l.length → UI.heapReadL (l ++ l') i = UI.heapReadL l i := by
  induction l with
  | nil => intro i hi; simp at hi
  | cons s rest ih =>
    intro i hi
    cases i with
    | zero => rfl
    | succ j => exact ih j (Nat.lt_of_succ_lt_succ hi)

/-- Reading the address one past the original store reads the appended
object. -/
theorem heapReadL_append_len (l : List UI.UIState) (x : UI.UIState) :
    UI.heapReadL (l ++ [x]) l.length = x := by
  induction l with
  | nil => rfl
  | cons s rest ih => exact ih

/-- Writing one address leaves every other address unchanged. -/
theorem heapReadL_writeL_ne (l : List UI.UIState) :
    ∀ (i j : Nat) (v : UI.UIState), i ≠ j →
      UI.heapReadL (UI.heapWriteL l i v) j = UI.heapReadL l j := by
  induction l with
  | nil => intro i j v _; cases i <;> rfl
  | cons s rest ih =>
    intro i j v hij
    cases i with
    | zero =>
      cases j with
      | zero => exact absurd rfl hij
      | succ j0 => rfl
    | succ i0 =>
      cases j with
      | zero => rfl
      | succ j0 => exact ih i0 j0 v (fun he => hij (by rw [he]))

/-- Claim C10: getState hands back a fresh shallow copy — calling it never
changes the object stored at the controller's address, the returned
address is distinct from the controller's, the copy reads equal to the
original, and writing through the returned address leaves the controller's
object untouched. -/
theorem getStateFreshCopy (h : UI.Heap) (self : Nat) (m : UI.UIState)
    (hlt : self < h.objs.length) :
    UI.heapRead (UI.getState h self).1 self = UI.heapRead h self ∧
    (UI.getState h self).2 ≠ self ∧
    UI.heapRead (UI.getState h self).1 (UI.getState h self).2 = UI.heapRead h self ∧
    UI.heapRead (UI.heapWrite (UI.getState h self).1 (UI.getState h self).2 m) self =
      UI.heapRead h self := by
  refine ⟨?_, ?_, ?_, ?_⟩
  · exact heapReadL_append_lt h.objs [UI.heapRead h self] self hlt
  · intro he
    have : h.objs.length = self := he
    rw [this] at hlt
    exact Nat.lt_irrefl self hlt
  · exact heapReadL_append_len h.objs (UI.heapRead h self)
  · have hne : h.objs.length ≠ self := by
      intro he
      rw [he] at hlt
      exact Nat.lt_irrefl self hlt
    have hw := heapReadL_writeL_ne (h.objs ++ [UI.heapRead h self])
      h.objs.length self m hne
    exact hw.trans (heapReadL_append_lt h.objs [UI.heapRead h self] self hlt)

/-- Claim C10 witness: on a one-object heap, getState copies the object to
a fresh address, and clobbering the copy leaves the original object
intact. -/
theorem getStateFreshCopyWitness :
    0 < (UI.Heap.mk [{ isListening := true }]).objs.length ∧
    (UI.heapRead (UI.getState (UI.Heap.mk [{ isListening := true }]) 0).1 0 =
        UI.heapRead (UI.Heap.mk [{ isListening := true }]) 0 ∧
      (UI.getState (UI.Heap.mk [{ isListening := true }]) 0).2 ≠ 0 ∧
      UI.heapRead (UI.getState (UI.Heap.mk [{ isListening := true }]) 0).1
          (UI.getState (UI.Heap.mk [{ isListening := true }]) 0).2 =
        UI.heapRead (UI.Heap.mk [{ isListening := true }]) 0 ∧
      UI.heapRead
          (UI.heapWrite (UI.getState (UI.Heap.mk [{ isListening := true }]) 0).1
            (UI.getState (UI.Heap.mk [{ isListening := true }]) 0).2
            { hasError := true }) 0 =
        UI.heapRead (UI.Heap.mk [{ isListening := true }]) 0) := by
  exact ⟨by decide,
    getStateFreshCopy (UI.Heap.mk [{ isListening := true }]) 0 { hasError := true }
      (by decide)⟩

end Voice2Web
